import Mathlib

/-!
# open62541 generic type handling (ua_types.h) and session services

A shallow embedding of the inline functions and constants of
`include/ua_types.h` and of the services of
`src/server/ua_services_session.c`, together with the properties of them that
the specification states.

Conventions of the embedding:
* a pointer is the `Nat` address it holds (`NULL` is address `0`);
* a fixed-width unsigned integer is a `Nat`, reduced `% 2^w` where a
  conversion or an overflow can happen;
* a signed 64-bit integer is the `Int` read off its 64-bit pattern;
* memory is a total map from addresses to bytes.
-/

namespace UA

/-! ## Pointers and the empty-array sentinel -/

/-- The null pointer of C, as an address. -/
def UA_NULL : Nat := 0

/-- Source: `#define UA_EMPTY_ARRAY_SENTINEL ((void*)0x01)`. -/
def UA_EMPTY_ARRAY_SENTINEL : Nat := 0x01

/-! ## Strings -/

/-- A `char *` argument: the address it holds and the bytes stored from
that address on. -/
structure CString where
  addr : Nat
  bytes : List Nat
deriving DecidableEq, Repr

/-- The C library `strlen`: the number of bytes before the first NUL. -/
def strlen (chars : CString) : Nat :=
  (chars.bytes.takeWhile (fun b => b != 0)).length

/-- Source: `UA_String`: a length and a pointer to the (not null-terminated) content. -/
structure UA_String where
  length : Nat
  data : Nat
deriving DecidableEq, Repr

/-- Source: `UA_STRING(chars)`: wraps a C string without copying it. -/
def UA_STRING (chars : CString) : UA_String :=
  { length := strlen chars, data := chars.addr }

/-- Source: `UA_ByteString` is a typedef of `UA_String`. -/
abbrev UA_ByteString := UA_String

/-- Source: `UA_BYTESTRING(chars)`. -/
def UA_BYTESTRING (chars : CString) : UA_ByteString :=
  { length := strlen chars, data := chars.addr }

/-- Source: `UA_Guid`. -/
structure UA_Guid where
  data1 : Nat
  data2 : Nat
  data3 : Nat
  data4 : List Nat
deriving DecidableEq, Repr

/-! ## NodeId -/

/-- Source: `enum UA_NodeIdType`. -/
inductive UA_NodeIdType where
  | UA_NODEIDTYPE_NUMERIC
  | UA_NODEIDTYPE_STRING
  | UA_NODEIDTYPE_GUID
  | UA_NODEIDTYPE_BYTESTRING
deriving DecidableEq, Repr

/-- The integer value of each enumerator of `UA_NodeIdType`. -/
def UA_NodeIdType.toNat : UA_NodeIdType → Nat
  | .UA_NODEIDTYPE_NUMERIC => 0
  | .UA_NODEIDTYPE_STRING => 3
  | .UA_NODEIDTYPE_GUID => 4
  | .UA_NODEIDTYPE_BYTESTRING => 5

/-- The anonymous union `identifier` of `UA_NodeId`, with the member that
was last stored. -/
inductive UA_NodeIdIdentifier where
  | numeric (n : Nat)
  | string (s : UA_String)
  | guid (g : UA_Guid)
  | byteString (b : UA_ByteString)
deriving DecidableEq, Repr

/-- Reading the union member `identifier.numeric`. When another member was
stored last, C reinterprets the leading bytes of that member; what comes out
depends on the memory layout and is left to the parameter `pun`. -/
def UA_NodeIdIdentifier.readNumeric (pun : UA_NodeIdIdentifier → Nat) :
    UA_NodeIdIdentifier → Nat
  | .numeric n => n
  | other => pun other

/-- Source: `UA_NodeId`. -/
structure UA_NodeId where
  namespaceIndex : Nat
  identifierType : UA_NodeIdType
  identifier : UA_NodeIdIdentifier
deriving DecidableEq, Repr

/-- The kind tag that matches the stored member of the union. -/
def UA_NodeIdIdentifier.kind : UA_NodeIdIdentifier → UA_NodeIdType
  | .numeric _ => .UA_NODEIDTYPE_NUMERIC
  | .string _ => .UA_NODEIDTYPE_STRING
  | .guid _ => .UA_NODEIDTYPE_GUID
  | .byteString _ => .UA_NODEIDTYPE_BYTESTRING

/-- A NodeId whose kind tag names the union member that is stored. -/
def UA_NodeId.wellTagged (n : UA_NodeId) : Prop :=
  n.identifierType = n.identifier.kind

instance (n : UA_NodeId) : Decidable n.wellTagged := by
  unfold UA_NodeId.wellTagged; infer_instance

/-- Source: `UA_NodeId_isNull(p)`; `&&` evaluates left to right and stops at the
first false operand. -/
def UA_NodeId_isNull (pun : UA_NodeIdIdentifier → Nat) (p : UA_NodeId) : Bool :=
  p.namespaceIndex == 0 && p.identifierType == .UA_NODEIDTYPE_NUMERIC &&
    p.identifier.readNumeric pun == 0

/-- Source: `UA_NODEID_NUMERIC(nsIndex, identifier)`. -/
def UA_NODEID_NUMERIC (nsIndex identifier : Nat) : UA_NodeId :=
  { namespaceIndex := nsIndex, identifierType := .UA_NODEIDTYPE_NUMERIC,
    identifier := .numeric identifier }

/-- Source: `UA_NODEID_STRING(nsIndex, chars)`. -/
def UA_NODEID_STRING (nsIndex : Nat) (chars : CString) : UA_NodeId :=
  { namespaceIndex := nsIndex, identifierType := .UA_NODEIDTYPE_STRING,
    identifier := .string (UA_STRING chars) }

/-- Source: `UA_NODEID_GUID(nsIndex, guid)`. -/
def UA_NODEID_GUID (nsIndex : Nat) (guid : UA_Guid) : UA_NodeId :=
  { namespaceIndex := nsIndex, identifierType := .UA_NODEIDTYPE_GUID,
    identifier := .guid guid }

/-- Source: `UA_NODEID_BYTESTRING(nsIndex, chars)`. -/
def UA_NODEID_BYTESTRING (nsIndex : Nat) (chars : CString) : UA_NodeId :=
  { namespaceIndex := nsIndex, identifierType := .UA_NODEIDTYPE_BYTESTRING,
    identifier := .byteString (UA_BYTESTRING chars) }

/-! ## Variant -/

/-- The anonymous enum `storageType` of `UA_Variant`. -/
inductive UA_VariantStorageType where
  | UA_VARIANT_DATA
  | UA_VARIANT_DATA_NODELETE
deriving DecidableEq, Repr

/-- Source: `UA_Variant`; `type`, `data` and `arrayDimensions` are pointers. -/
structure UA_Variant where
  type : Nat
  storageType : UA_VariantStorageType
  arrayLength : Nat
  data : Nat
  arrayDimensionsSize : Nat
  arrayDimensions : Nat
deriving DecidableEq, Repr

/-- Source: `UA_Variant_isScalar(v)`. -/
def UA_Variant_isScalar (v : UA_Variant) : Bool :=
  v.arrayLength == 0 && decide (v.data > UA_EMPTY_ARRAY_SENTINEL)

/-- Variant semantics, first line: `arrayLength == 0 && data == NULL`,
no existing data. -/
def UA_Variant.isAbsent (v : UA_Variant) : Bool :=
  v.arrayLength == 0 && v.data == UA_NULL

/-- Variant semantics, second line: `arrayLength == 0 && data == 0x01`,
array of length 0. -/
def UA_Variant.isEmptyArray (v : UA_Variant) : Bool :=
  v.arrayLength == 0 && v.data == 0x01

/-- Variant semantics, third line: `arrayLength == 0 && data > 0x01`,
scalar value. -/
def UA_Variant.isScalarState (v : UA_Variant) : Bool :=
  v.arrayLength == 0 && decide (v.data > 0x01)

/-- Variant semantics, fourth line: `arrayLength > 0`, array of the given
length. -/
def UA_Variant.isArray (v : UA_Variant) : Bool :=
  decide (v.arrayLength > 0)

/-- How many of the four states of the variant semantics hold. -/
def UA_Variant.statesHolding (v : UA_Variant) : Nat :=
  v.isAbsent.toNat + v.isEmptyArray.toNat + v.isScalarState.toNat + v.isArray.toNat

/-! ## Type descriptors and `UA_init` -/

/-- Source: `UA_DataTypeMember`. -/
structure UA_DataTypeMember where
  memberTypeIndex : Nat
  padding : Nat
  namespaceZero : Bool
  isArray : Bool
deriving DecidableEq, Repr

/-- Source: `struct UA_DataType`. -/
structure UA_DataType where
  typeId : UA_NodeId
  memSize : Nat
  typeIndex : Nat
  membersSize : Nat
  builtin : Bool
  fixedSize : Bool
  zeroCopyable : Bool
  members : List UA_DataTypeMember
deriving DecidableEq, Repr

/-- Byte-addressed memory. -/
abbrev Memory := Nat → Nat

/-- Storing one byte; the value is converted to `unsigned char`. -/
def Memory.store (mem : Memory) (a c : Nat) : Memory :=
  fun x => if x = a then c % 256 else mem x

/-- The C library `memset(p, c, n)`: stores the byte `c` at `p`, `p + 1`, ...,
`n` times. -/
def memset (mem : Memory) (p c : Nat) : Nat → Memory
  | 0 => mem
  | n + 1 => memset (mem.store p c) (p + 1) c n

/-- Source: `UA_init(p, type)`: `memset(p, 0, type->memSize)`. -/
def UA_init (mem : Memory) (p : Nat) (type : UA_DataType) : Memory :=
  memset mem p 0 type.memSize

/-! ## Generic copy -/

/-- Modelled from the spec: the error kinds of the type engine (allocation
failure, invalid range, type mismatch); the status codes of `ua_statuscodes.h`
are not part of the sources. -/
inductive UA_Error where
  | AllocationFailure
  | InvalidRange
  | TypeMismatch
deriving DecidableEq, Repr

/-- Modelled from the spec: the copy of one member inside `UA_copy`, the Array
Engine for an array member, the recursive copy with the member descriptor
otherwise. Both are parameters, so that any of them can be made to fail at
any member position. -/
def copyMember {V : Type} (arrayCopy memberCopy : Nat → V → Except UA_Error V)
    (i : Nat) (m : UA_DataTypeMember) (v : V) : Except UA_Error V :=
  if m.isArray then arrayCopy i v else memberCopy i v

/-- Modelled from the spec: the walk of `UA_copy` over the members in order.
Member `i` of the source is copied into slot `i` of the destination, and the
walk stops at the first member whose copy fails. A slot is `none` while it is
zero-initialized. -/
def copyMembers {V : Type} (arrayCopy memberCopy : Nat → V → Except UA_Error V) :
    Nat → List UA_DataTypeMember → List V → List (Option V) →
      Option UA_Error × List (Option V)
  | _, [], _, dst => (none, dst)
  | _, _ :: _, [], dst => (none, dst)
  | i, m :: ms, v :: vs, dst =>
    match copyMember arrayCopy memberCopy i m v with
    | .error e => (some e, dst)
    | .ok w => copyMembers arrayCopy memberCopy (i + 1) ms vs (dst.set i (some w))

/-- Modelled from the spec: the members of a destination of `UA_copy` that
hold a copy. -/
def populated {V : Type} (dst : List (Option V)) : List V :=
  dst.filterMap id

/-- Modelled from the spec: the outcome of `UA_copy`, that is the status
(`none` is success), the source and the destination afterwards, and the
copies that were released again. -/
structure CopyResult (V : Type) where
  status : Option UA_Error
  src : List V
  dst : List (Option V)
  released : List V

/-- Modelled from the spec: the body of `UA_copy`, which `ua_types.h` only
declares. For a builtin type the dedicated copy of the type is used; otherwise
the members are walked in order. When a member copy fails the members already
copied into the destination are released and the destination is left
zero-initialized. -/
def UA_copy {V : Type} (builtinCopy : List V → Except UA_Error (List V))
    (arrayCopy memberCopy : Nat → V → Except UA_Error V)
    (src : List V) (type : UA_DataType) : CopyResult V :=
  let zeroed : List (Option V) := List.replicate src.length none
  if type.builtin then
    match builtinCopy src with
    | .error e => { status := some e, src := src, dst := zeroed, released := [] }
    | .ok ws => { status := none, src := src, dst := ws.map some, released := [] }
  else
    match copyMembers arrayCopy memberCopy 0 type.members src zeroed with
    | (none, dst) => { status := none, src := src, dst := dst, released := [] }
    | (some e, dst) =>
      { status := some e, src := src, dst := zeroed, released := populated dst }

/-! ## Arrays -/

/-- Source: `#define MAX_ARRAY_SIZE 104857600`. -/
def MAX_ARRAY_SIZE : Nat := 104857600

/-- Modelled from the spec: the zero-initialized allocation inside
`UA_Array_new`, `n * size` zero bytes, or nothing when no memory is
available. -/
def UA_calloc (available : Bool) (n size : Nat) : Option (List Nat) :=
  if available then some (List.replicate (n * size) 0) else none

/-- Modelled from the spec: the body of `UA_Array_new`, which `ua_types.h`
only declares. It allocates `size * memSize` zero-initialized bytes and fails
when `size` is zero, when `size` exceeds the ceiling `MAX_ARRAY_SIZE`, or when
the allocation fails. -/
def UA_Array_new (available : Bool) (size : Nat) (type : UA_DataType) :
    Option (List Nat) :=
  if size = 0 then none
  else if size > MAX_ARRAY_SIZE then none
  else UA_calloc available size type.memSize

/-! ## Integer constants -/

/-- An integer literal too large for `long long`, taken modulo `2^64`. -/
def literal64 (n : Nat) : Nat := n % 2 ^ 64

/-- Unary minus of 64-bit arithmetic. -/
def neg64 (x : Nat) : Nat := (2 ^ 64 - x % 2 ^ 64) % 2 ^ 64

/-- The cast `(int64_t)`: the two's-complement reading of a 64-bit pattern. -/
def castInt64 (bits : Nat) : Int :=
  if bits % 2 ^ 64 < 2 ^ 63 then ((bits % 2 ^ 64 : Nat) : Int)
  else ((bits % 2 ^ 64 : Nat) : Int) - 2 ^ 64

/-- The conversion to `uint64_t` of a signed value. -/
def castUInt64 (x : Int) : Nat := (x % 2 ^ 64).toNat

/-- The conversion to `uint8_t` (`UA_Byte`). -/
def castByte (n : Nat) : Nat := n % 2 ^ 8

/-- Source: `#define UA_SBYTE_MAX 127`. -/
def UA_SBYTE_MAX : Int := 127

/-- Source: `#define UA_BYTE_MAX 256`. -/
def UA_BYTE_MAX : Nat := 256

/-- Source: `#define UA_BYTE_MIN 0`. -/
def UA_BYTE_MIN : Nat := 0

/-- Source: `#define UA_UINT16_MAX 65535`. -/
def UA_UINT16_MAX : Nat := 65535

/-- Source: `#define UA_UINT32_MAX 4294967295`. -/
def UA_UINT32_MAX : Nat := 4294967295

/-- Source: `#define UA_INT64_MAX (int64_t)9223372036854775807`. -/
def UA_INT64_MAX : Int := castInt64 (literal64 9223372036854775807)

/-- Source: `#define UA_INT64_MIN ((int64_t)-9223372036854775808)`: the cast applies
to the negated literal. -/
def UA_INT64_MIN : Int := castInt64 (neg64 (literal64 9223372036854775808))

/-- Source: `#define UA_UINT64_MAX (int64_t)18446744073709551615`. -/
def UA_UINT64_MAX : Int := castInt64 (literal64 18446744073709551615)

/-- Source: `#define UA_UINT64_MIN (int64_t)0`. -/
def UA_UINT64_MIN : Int := castInt64 (literal64 0)

/-! ## DateTime -/

/-- The product of two `long long` values, wrapped to 64 bits. -/
def mulLL (a b : Int) : Int := castInt64 (castUInt64 (a * b))

/-- Source: `#define UA_USEC_TO_DATETIME 10LL`. -/
def UA_USEC_TO_DATETIME : Int := 10

/-- Source: `#define UA_MSEC_TO_DATETIME (UA_USEC_TO_DATETIME * 1000LL)`. -/
def UA_MSEC_TO_DATETIME : Int := mulLL UA_USEC_TO_DATETIME 1000

/-- Source: `#define UA_SEC_TO_DATETIME (UA_MSEC_TO_DATETIME * 1000LL)`. -/
def UA_SEC_TO_DATETIME : Int := mulLL UA_MSEC_TO_DATETIME 1000

/-- Source: `#define UA_DATETIME_UNIX_EPOCH (11644473600LL * UA_SEC_TO_DATETIME)`. -/
def UA_DATETIME_UNIX_EPOCH : Int := mulLL 11644473600 UA_SEC_TO_DATETIME

/-- Leap years of the proleptic Gregorian calendar. -/
def isLeapYear (y : Nat) : Bool :=
  y % 4 == 0 && (y % 100 != 0 || y % 400 == 0)

/-- The number of days of a year of the proleptic Gregorian calendar. -/
def daysInYear (y : Nat) : Nat := if isLeapYear y then 366 else 365

/-- The number of days from 1 January of year `y` to 1 January of year
`y + n`. -/
def daysFromYear (y : Nat) : Nat → Nat
  | 0 => 0
  | n + 1 => daysInYear y + daysFromYear (y + 1) n

/-! ## Reading structures back from memory -/

/-- What the C implementation fixes about scalars: the byte order, the size
in bytes of `size_t` and of a pointer, and the size of an enumeration. -/
structure Platform where
  bigEndian : Bool
  wordSize : Nat
  enumSize : Nat
deriving DecidableEq, Repr

/-- The unsigned integer stored in the `w` bytes from address `a` on, least
significant byte first. -/
def loadLE (mem : Memory) (a : Nat) : Nat → Nat
  | 0 => 0
  | w + 1 => mem a % 256 + 256 * loadLE mem (a + 1) w

/-- The unsigned integer stored in the `w` bytes from address `a` on, most
significant byte first. -/
def loadBE (mem : Memory) (a : Nat) : Nat → Nat
  | 0 => 0
  | w + 1 => 256 * loadBE mem a w + mem (a + w) % 256

/-- Reading an unsigned scalar of `w` bytes at address `a`. -/
def Platform.load (pf : Platform) (mem : Memory) (a w : Nat) : Nat :=
  if pf.bigEndian then loadBE mem a w else loadLE mem a w

/-- The enumerator of `UA_NodeIdType` with a given integer value, if any. -/
def UA_NodeIdType.ofNat? : Nat → Option UA_NodeIdType
  | 0 => some .UA_NODEIDTYPE_NUMERIC
  | 3 => some .UA_NODEIDTYPE_STRING
  | 4 => some .UA_NODEIDTYPE_GUID
  | 5 => some .UA_NODEIDTYPE_BYTESTRING
  | _ => none

/-- The integer value of each enumerator of the `storageType` enum; they are
numbered from 0 in the order of declaration. -/
def UA_VariantStorageType.toNat : UA_VariantStorageType → Nat
  | .UA_VARIANT_DATA => 0
  | .UA_VARIANT_DATA_NODELETE => 1

/-- The enumerator of the `storageType` enum with a given integer value, if
any. -/
def UA_VariantStorageType.ofNat? : Nat → Option UA_VariantStorageType
  | 0 => some .UA_VARIANT_DATA
  | 1 => some .UA_VARIANT_DATA_NODELETE
  | _ => none

/-- Reading a `UA_String` at address `a`: the `size_t` length, directly
followed by the pointer. -/
def UA_String.load (pf : Platform) (mem : Memory) (a : Nat) : UA_String :=
  { length := pf.load mem a pf.wordSize,
    data := pf.load mem (a + pf.wordSize) pf.wordSize }

/-- Reading a `UA_Guid` at address `a`: 4 + 2 + 2 + 8 bytes. -/
def UA_Guid.load (pf : Platform) (mem : Memory) (a : Nat) : UA_Guid :=
  { data1 := pf.load mem a 4, data2 := pf.load mem (a + 4) 2,
    data3 := pf.load mem (a + 6) 2,
    data4 := (List.range 8).map (fun i => mem (a + 8 + i) % 256) }

/-- The offsets of the three fields of `UA_NodeId` within the structure. -/
structure UA_NodeId_Layout where
  namespaceIndex : Nat
  identifierType : Nat
  identifier : Nat
deriving DecidableEq, Repr

/-- Reading the `UA_NodeId` stored at address `p`: the 16-bit namespace index,
the kind tag, and the member of the union that the tag selects. There is no
NodeId when the tag is not the value of an enumerator. -/
def UA_NodeId.load (pf : Platform) (lay : UA_NodeId_Layout) (mem : Memory) (p : Nat) :
    Option UA_NodeId :=
  match UA_NodeIdType.ofNat? (pf.load mem (p + lay.identifierType) pf.enumSize) with
  | none => none
  | some ty =>
    some
      { namespaceIndex := pf.load mem (p + lay.namespaceIndex) 2,
        identifierType := ty,
        identifier :=
          match ty with
          | .UA_NODEIDTYPE_NUMERIC => .numeric (pf.load mem (p + lay.identifier) 4)
          | .UA_NODEIDTYPE_STRING => .string (UA_String.load pf mem (p + lay.identifier))
          | .UA_NODEIDTYPE_GUID => .guid (UA_Guid.load pf mem (p + lay.identifier))
          | .UA_NODEIDTYPE_BYTESTRING =>
            .byteString (UA_String.load pf mem (p + lay.identifier)) }

/-- The descriptor size covers the three fields of a `UA_NodeId`. -/
def UA_NodeId_Layout.fits (pf : Platform) (lay : UA_NodeId_Layout) (memSize : Nat) : Prop :=
  lay.namespaceIndex + 2 ≤ memSize ∧ lay.identifierType + pf.enumSize ≤ memSize ∧
    lay.identifier + 4 ≤ memSize

instance (pf : Platform) (lay : UA_NodeId_Layout) (memSize : Nat) :
    Decidable (lay.fits pf memSize) := by
  unfold UA_NodeId_Layout.fits; infer_instance

/-- The offsets of the six fields of `UA_Variant` within the structure. -/
structure UA_Variant_Layout where
  type : Nat
  storageType : Nat
  arrayLength : Nat
  data : Nat
  arrayDimensionsSize : Nat
  arrayDimensions : Nat
deriving DecidableEq, Repr

/-- Reading the `UA_Variant` stored at address `p`. There is no Variant when
the storage type is not the value of an enumerator. -/
def UA_Variant.load (pf : Platform) (lay : UA_Variant_Layout) (mem : Memory) (p : Nat) :
    Option UA_Variant :=
  match UA_VariantStorageType.ofNat? (pf.load mem (p + lay.storageType) pf.enumSize) with
  | none => none
  | some st =>
    some
      { type := pf.load mem (p + lay.type) pf.wordSize,
        storageType := st,
        arrayLength := pf.load mem (p + lay.arrayLength) pf.wordSize,
        data := pf.load mem (p + lay.data) pf.wordSize,
        arrayDimensionsSize := pf.load mem (p + lay.arrayDimensionsSize) pf.wordSize,
        arrayDimensions := pf.load mem (p + lay.arrayDimensions) pf.wordSize }

/-- The descriptor size covers the six fields of a `UA_Variant`. -/
def UA_Variant_Layout.fits (pf : Platform) (lay : UA_Variant_Layout) (memSize : Nat) : Prop :=
  lay.type + pf.wordSize ≤ memSize ∧ lay.storageType + pf.enumSize ≤ memSize ∧
    lay.arrayLength + pf.wordSize ≤ memSize ∧ lay.data + pf.wordSize ≤ memSize ∧
    lay.arrayDimensionsSize + pf.wordSize ≤ memSize ∧
    lay.arrayDimensions + pf.wordSize ≤ memSize

instance (pf : Platform) (lay : UA_Variant_Layout) (memSize : Nat) :
    Decidable (lay.fits pf memSize) := by
  unfold UA_Variant_Layout.fits; infer_instance

/-! ## Session services (ua_services_session.c) -/

/-- The fields of `UA_Session` that the session services read or write; the
declaration of the structure is not part of the sources. `channel` is the
pointer to the secure channel of the session. -/
structure UA_Session where
  sessionId : UA_NodeId
  sessionName : UA_String
  maxResponseMessageSize : Nat
  timeout : Nat
  authenticationToken : UA_NodeId
  channel : Nat
deriving DecidableEq, Repr

/-- The field of `UA_SecureChannel` that the session services write: the
pointer to the session of the channel, `UA_NULL` when there is none. -/
structure UA_SecureChannel where
  session : Nat
deriving DecidableEq, Repr

/-- The part of the server that the session services touch: the session
manager (`server->sessionManager`, of a type `SM` declared outside the
sources), and the session and channel objects, each found by its address. -/
structure ServerState (SM : Type) where
  sessionManager : SM
  sessions : Nat → UA_Session
  channels : Nat → UA_SecureChannel

/-- The assignment of a whole session object at address `a`. -/
def ServerState.setSession {SM : Type} (st : ServerState SM) (a : Nat) (s : UA_Session) :
    ServerState SM :=
  { st with sessions := fun x => if x = a then s else st.sessions x }

/-- The assignment of a whole channel object at address `a`. -/
def ServerState.setChannel {SM : Type} (st : ServerState SM) (a : Nat)
    (c : UA_SecureChannel) : ServerState SM :=
  { st with channels := fun x => if x = a then c else st.channels x }

/-- What the session services use and the sources do not define: the status
`UA_SUCCESS`, `UA_SessionManager_createSession` (it returns the new state and
the pointer it stores in `newSession`), `UA_SessionManager_removeSession`, and
`UA_String_copy` (it returns what the destination string holds afterwards). -/
structure SessionEnv (SM : Type) where
  UA_SUCCESS : Int
  UA_SessionManager_createSession : ServerState SM → Nat → ServerState SM × Nat
  UA_SessionManager_removeSession : ServerState SM → UA_NodeId → ServerState SM
  UA_String_copy : UA_String → UA_String

/-- The fields of `UA_CreateSessionRequest` that `Service_CreateSession`
reads. -/
structure UA_CreateSessionRequest where
  sessionName : UA_String
  maxResponseMessageSize : Nat
deriving DecidableEq, Repr

/-- The fields of `UA_CreateSessionResponse` that `Service_CreateSession`
writes. -/
structure UA_CreateSessionResponse where
  sessionId : UA_NodeId
  revisedSessionTimeout : Nat
  authenticationToken : UA_NodeId
deriving DecidableEq, Repr

/-- What a service leaves behind: its return value, the server state and the
response structure. -/
structure ServiceResult (SM Resp : Type) where
  retval : Int
  state : ServerState SM
  response : Resp

/-- Source: `Service_CreateSession(server, channel, request, response)`,
statement by statement. -/
def Service_CreateSession {SM : Type} (env : SessionEnv SM) (st : ServerState SM)
    (channel : Nat) (request : UA_CreateSessionRequest)
    (response : UA_CreateSessionResponse) :
    ServiceResult SM UA_CreateSessionResponse :=
  let created := env.UA_SessionManager_createSession st channel
  let st1 := created.1
  let newSession := created.2
  let st2 := st1.setSession newSession
    { st1.sessions newSession with sessionName := env.UA_String_copy request.sessionName }
  let st3 := st2.setSession newSession
    { st2.sessions newSession with maxResponseMessageSize := request.maxResponseMessageSize }
  let response1 := { response with sessionId := (st3.sessions newSession).sessionId }
  let response2 :=
    { response1 with revisedSessionTimeout := (st3.sessions newSession).timeout }
  let response3 :=
    { response2 with authenticationToken := (st3.sessions newSession).authenticationToken }
  let st4 := st3.setChannel channel { st3.channels channel with session := newSession }
  { retval := env.UA_SUCCESS, state := st4, response := response3 }

/-- Source: `Service_ActivateSession(server, session, request, response)`; the
only statement besides the return is commented out. -/
def Service_ActivateSession {SM Req Resp : Type} (env : SessionEnv SM)
    (st : ServerState SM) (_session : Nat) (_request : Req) (response : Resp) :
    ServiceResult SM Resp :=
  { retval := env.UA_SUCCESS, state := st, response := response }

/-- Source: `Service_CloseSession(server, session, request, response)`. -/
def Service_CloseSession {SM Req Resp : Type} (env : SessionEnv SM)
    (st : ServerState SM) (session : Nat) (_request : Req) (response : Resp) :
    ServiceResult SM Resp :=
  let channel := (st.sessions session).channel
  let st1 := st.setChannel channel { st.channels channel with session := UA_NULL }
  let st2 := env.UA_SessionManager_removeSession st1 (st1.sessions session).sessionId
  { retval := env.UA_SUCCESS, state := st2, response := response }

/-- A session manager for the examples: it keeps the addresses of its
sessions. A new session is placed at address `100 + n` when `n` sessions
exist, gets the NodeId `(1, 100 + n)` and a pointer to the channel; removing
drops the sessions with the given id from the list. -/
def exampleSessionEnv : SessionEnv (List Nat) :=
  { UA_SUCCESS := 0,
    UA_SessionManager_createSession := fun st channel =>
      let a := 100 + st.sessionManager.length
      ({ st with
          sessionManager := a :: st.sessionManager,
          sessions := fun x =>
            if x = a then
              { st.sessions x with sessionId := UA_NODEID_NUMERIC 1 a, channel := channel }
            else st.sessions x }, a),
    UA_SessionManager_removeSession := fun st id =>
      { st with
          sessionManager := st.sessionManager.filter (fun a => (st.sessions a).sessionId != id) },
    UA_String_copy := fun s => s }

/-- A server without sessions, all of whose channels have no session. -/
def exampleServerState : ServerState (List Nat) :=
  { sessionManager := [],
    sessions := fun _ =>
      { sessionId := UA_NODEID_NUMERIC 0 0, sessionName := { length := 0, data := UA_NULL },
        maxResponseMessageSize := 0, timeout := 0,
        authenticationToken := UA_NODEID_NUMERIC 0 0, channel := UA_NULL },
    channels := fun _ => { session := UA_NULL } }

/-- A create-session request for the examples. -/
def exampleCreateSessionRequest : UA_CreateSessionRequest :=
  { sessionName := { length := 4, data := 8192 }, maxResponseMessageSize := 65536 }

/-- A response structure for the examples, before the service fills it. -/
def exampleCreateSessionResponse : UA_CreateSessionResponse :=
  { sessionId := UA_NODEID_NUMERIC 0 0, revisedSessionTimeout := 0,
    authenticationToken := UA_NODEID_NUMERIC 0 0 }

/-! ## Helper lemmas -/

theorem memset_apply (c : Nat) :
    ∀ (n : Nat) (mem : Memory) (p a : Nat),
      memset mem p c n a = if p ≤ a ∧ a < p + n then c % 256 else mem a := by
  intro n
  induction n with
  | zero =>
    intro mem p a
    have h : ¬ (p ≤ a ∧ a < p + 0) := by omega
    rw [if_neg h, memset]
  | succ k ih =>
    intro mem p a
    rw [memset, ih]
    by_cases h1 : a = p
    · subst h1
      have h2 : ¬ (a + 1 ≤ a ∧ a < a + 1 + k) := by omega
      have h3 : a ≤ a ∧ a < a + (k + 1) := by omega
      simp [h2, h3, Memory.store]
    · by_cases h4 : p ≤ a ∧ a < p + (k + 1)
      · have h5 : p + 1 ≤ a ∧ a < p + 1 + k := by omega
        simp [h4, h5]
      · have h5 : ¬ (p + 1 ≤ a ∧ a < p + 1 + k) := by omega
        simp [h4, h5, Memory.store, h1]

/-! ## Variant -/

/-- C1: `UA_Variant_isScalar(v)` is true if and only if `v.arrayLength == 0`
and `v.data`, compared as an unsigned address, is neither the null pointer
nor the empty-array sentinel `0x01`. -/
theorem UA_Variant_isScalar_iff (v : UA_Variant) :
    UA_Variant_isScalar v = true ↔
      (v.arrayLength = 0 ∧ v.data ≠ UA_NULL ∧ v.data ≠ UA_EMPTY_ARRAY_SENTINEL) := by
  simp only [UA_Variant_isScalar, UA_NULL, UA_EMPTY_ARRAY_SENTINEL, Bool.and_eq_true,
    beq_iff_eq, decide_eq_true_eq]
  constructor
  · rintro ⟨h0, h1⟩
    exact ⟨h0, by omega, by omega⟩
  · rintro ⟨h0, h1, h2⟩
    exact ⟨h0, by omega⟩

/-- C2: the variant sentinel law. Of the four states absent, empty array,
scalar and array exactly one holds for every pair `(arrayLength, data)`: they
are jointly exhaustive and pairwise exclusive, and `UA_Variant_isScalar` is
true exactly in the scalar state and false in the three others. -/
theorem UA_Variant_sentinel_law (v : UA_Variant) :
    v.statesHolding = 1 ∧
    (v.isAbsent = true ∨ v.isEmptyArray = true ∨ v.isScalarState = true ∨
      v.isArray = true) ∧
    ¬ (v.isAbsent = true ∧ v.isEmptyArray = true) ∧
    ¬ (v.isAbsent = true ∧ v.isScalarState = true) ∧
    ¬ (v.isAbsent = true ∧ v.isArray = true) ∧
    ¬ (v.isEmptyArray = true ∧ v.isScalarState = true) ∧
    ¬ (v.isEmptyArray = true ∧ v.isArray = true) ∧
    ¬ (v.isScalarState = true ∧ v.isArray = true) ∧
    UA_Variant_isScalar v = v.isScalarState ∧
    (v.isAbsent = true ∨ v.isEmptyArray = true ∨ v.isArray = true →
      UA_Variant_isScalar v = false) := by
  obtain ⟨ty, st, len, data, dsz, dims⟩ := v
  simp only [UA_Variant.statesHolding, UA_Variant.isAbsent, UA_Variant.isEmptyArray,
    UA_Variant.isScalarState, UA_Variant.isArray, UA_Variant_isScalar, UA_NULL,
    UA_EMPTY_ARRAY_SENTINEL]
  rcases Nat.eq_zero_or_pos len with hl | hl
  · subst hl
    rcases Nat.lt_trichotomy data 1 with hd | hd | hd
    · have hd0 : data = 0 := by omega
      subst hd0
      simp
    · subst hd
      simp
    · have h0 : data ≠ 0 := by omega
      have h1 : data ≠ 1 := by omega
      simp [h0, h1, hd]
  · have hl0 : len ≠ 0 := by omega
    simp [hl0, hl]

/-- A variant in the empty-array state (length 0, data `0x01`) is not a
scalar. -/
theorem UA_Variant_sentinel_law_witness :
    UA_Variant_isScalar
      { type := 0, storageType := .UA_VARIANT_DATA, arrayLength := 0, data := 1,
        arrayDimensionsSize := 0, arrayDimensions := 0 } = false :=
  (UA_Variant_sentinel_law
      { type := 0, storageType := .UA_VARIANT_DATA, arrayLength := 0, data := 1,
        arrayDimensionsSize := 0, arrayDimensions := 0 }).2.2.2.2.2.2.2.2.2
    (Or.inr (Or.inl (by decide)))

/-! ## NodeId -/

/-- C3: the null test accepts the canonical null NodeId and nothing else.
`UA_NodeId_isNull(UA_NODEID_NUMERIC(0, 0))` is true; a NodeId with a non-zero
namespace index, with a kind other than numeric, or with a non-zero numeric
identifier is not null; and a NodeId whose kind tag matches its identifier is
null only if it is `UA_NODEID_NUMERIC(0, 0)`. This holds whatever reading the
numeric member of a non-numeric identifier would give. -/
theorem UA_NodeId_isNull_only_canonical (pun : UA_NodeIdIdentifier → Nat)
    (n : UA_NodeId) :
    UA_NodeId_isNull pun (UA_NODEID_NUMERIC 0 0) = true ∧
    (n.namespaceIndex ≠ 0 → UA_NodeId_isNull pun n = false) ∧
    (n.identifierType ≠ .UA_NODEIDTYPE_NUMERIC → UA_NodeId_isNull pun n = false) ∧
    (∀ k, k ≠ 0 → n.identifier = .numeric k → UA_NodeId_isNull pun n = false) ∧
    (n.wellTagged → (UA_NodeId_isNull pun n = true ↔ n = UA_NODEID_NUMERIC 0 0)) ∧
    (∀ ns chars, UA_NodeId_isNull pun (UA_NODEID_STRING ns chars) = false) ∧
    (∀ ns guid, UA_NodeId_isNull pun (UA_NODEID_GUID ns guid) = false) ∧
    (∀ ns chars, UA_NodeId_isNull pun (UA_NODEID_BYTESTRING ns chars) = false) := by
  refine ⟨by simp [UA_NodeId_isNull, UA_NODEID_NUMERIC, UA_NodeIdIdentifier.readNumeric],
    ?_, ?_, ?_, ?_, ?_, ?_, ?_⟩
  · intro h
    simp [UA_NodeId_isNull, h]
  · intro h
    simp [UA_NodeId_isNull, h]
  · intro k hk hid
    simp [UA_NodeId_isNull, hid, UA_NodeIdIdentifier.readNumeric, hk]
  · intro hw
    obtain ⟨ns, ty, ident⟩ := n
    simp only [UA_NodeId.wellTagged] at hw
    subst hw
    cases ident <;>
      simp [UA_NodeId_isNull, UA_NODEID_NUMERIC, UA_NodeIdIdentifier.kind,
        UA_NodeIdIdentifier.readNumeric]
  · intro ns chars
    simp [UA_NodeId_isNull, UA_NODEID_STRING]
  · intro ns guid
    simp [UA_NodeId_isNull, UA_NODEID_GUID]
  · intro ns chars
    simp [UA_NodeId_isNull, UA_NODEID_BYTESTRING]

/-- The namespace-0 string NodeId with the empty string, stored at address
4096, has a matching kind tag and is not null, even when reading its numeric
member would give 0. -/
theorem UA_NodeId_isNull_only_canonical_witness :
    (UA_NODEID_STRING 0 { addr := 4096, bytes := [0] }).wellTagged ∧
    ¬ (UA_NodeId_isNull (fun _ => 0)
        (UA_NODEID_STRING 0 { addr := 4096, bytes := [0] }) = true) :=
  ⟨by decide, fun h =>
    absurd (((UA_NodeId_isNull_only_canonical (fun _ => 0)
      (UA_NODEID_STRING 0 { addr := 4096, bytes := [0] })).2.2.2.2.1 (by decide)).mp h)
      (by decide)⟩

/-! ## `UA_init` -/

/-- C4: `UA_init(p, T)` is total and zero-fills the region. Afterwards each of
the first `T.memSize` bytes at `p` is 0, every byte outside that range is
unchanged, and running `UA_init` twice gives the same memory as running it
once. -/
theorem UA_init_zero_fills (mem : Memory) (p : Nat) (type : UA_DataType) :
    (∀ a, p ≤ a → a < p + type.memSize → UA_init mem p type a = 0) ∧
    (∀ a, (a < p ∨ p + type.memSize ≤ a) → UA_init mem p type a = mem a) ∧
    UA_init (UA_init mem p type) p type = UA_init mem p type := by
  refine ⟨?_, ?_, ?_⟩
  · intro a h1 h2
    simp [UA_init, memset_apply, h1, h2]
  · intro a h
    have h3 : ¬ (p ≤ a ∧ a < p + type.memSize) := by omega
    simp [UA_init, memset_apply, h3]
  · funext a
    simp only [UA_init, memset_apply]
    split <;> rfl

/-- A descriptor of size 3 at address 4 in a memory of `0xFF` bytes: byte 5
is cleared and byte 7 keeps its value. -/
theorem UA_init_zero_fills_witness :
    UA_init (fun _ => 255) 4
      { typeId := UA_NODEID_NUMERIC 0 1, memSize := 3, typeIndex := 0, membersSize := 0,
        builtin := true, fixedSize := true, zeroCopyable := true, members := [] } 5 = 0 ∧
    UA_init (fun _ => 255) 4
      { typeId := UA_NODEID_NUMERIC 0 1, memSize := 3, typeIndex := 0, membersSize := 0,
        builtin := true, fixedSize := true, zeroCopyable := true, members := [] } 7 = 255 :=
  ⟨(UA_init_zero_fills (fun _ => 255) 4
      { typeId := UA_NODEID_NUMERIC 0 1, memSize := 3, typeIndex := 0, membersSize := 0,
        builtin := true, fixedSize := true, zeroCopyable := true, members := [] }).1 5
      (by decide) (by decide),
   (UA_init_zero_fills (fun _ => 255) 4
      { typeId := UA_NODEID_NUMERIC 0 1, memSize := 3, typeIndex := 0, membersSize := 0,
        builtin := true, fixedSize := true, zeroCopyable := true, members := [] }).2.1 7
      (Or.inr (by decide))⟩

/-! ## Generic copy -/

theorem copyMembers_fails {V : Type} (arrayCopy memberCopy : Nat → V → Except UA_Error V) :
    ∀ (ms : List UA_DataTypeMember) (vs : List V) (i : Nat) (dst : List (Option V))
      (j : Nat) (m : UA_DataTypeMember) (v : V) (e : UA_Error),
      ms[j]? = some m → vs[j]? = some v →
      copyMember arrayCopy memberCopy (i + j) m v = .error e →
      ∃ e1 dst1, copyMembers arrayCopy memberCopy i ms vs dst = (some e1, dst1) := by
  intro ms
  induction ms with
  | nil =>
    intro vs i dst j m v e hm
    simp at hm
  | cons m0 ms ih =>
    intro vs i dst j m v e hm hv hfail
    cases vs with
    | nil => simp at hv
    | cons v0 vs =>
      rw [copyMembers]
      cases hc : copyMember arrayCopy memberCopy i m0 v0 with
      | error e0 => exact ⟨e0, dst, rfl⟩
      | ok w =>
        cases j with
        | zero =>
          simp only [List.getElem?_cons_zero, Option.some.injEq] at hm hv
          subst hm
          subst hv
          rw [Nat.add_zero, hc] at hfail
          cases hfail
        | succ j1 =>
          simp only [List.getElem?_cons_succ] at hm hv
          have hidx : i + (j1 + 1) = i + 1 + j1 := by omega
          rw [hidx] at hfail
          exact ih vs (i + 1) (dst.set i (some w)) j1 m v e hm hv hfail

theorem populated_replicate_none {V : Type} (n : Nat) :
    populated (List.replicate n (none : Option V)) = [] := by
  induction n with
  | zero => rfl
  | succ k ih =>
    rw [List.replicate_succ]
    simp only [populated, List.filterMap_cons, id] at ih ⊢
    exact ih

/-- C5: atomic copy failure. For a structured (not builtin) type with `N`
members and a source holding `N` member values, if the copy of the `k`-th
member (`1 ≤ k ≤ N`) fails, then `UA_copy` returns an error status, the
destination is left zero-initialized in all `N` slots with no member
populated, and the source is unchanged. -/
theorem UA_copy_failure_atomic {V : Type}
    (builtinCopy : List V → Except UA_Error (List V))
    (arrayCopy memberCopy : Nat → V → Except UA_Error V)
    (src : List V) (type : UA_DataType) (k : Nat) (m : UA_DataTypeMember) (v : V)
    (e : UA_Error)
    (hT : type.builtin = false) (hN : src.length = type.members.length)
    (hk : 1 ≤ k) (hm : type.members[k - 1]? = some m) (hv : src[k - 1]? = some v)
    (hfail : copyMember arrayCopy memberCopy (k - 1) m v = .error e) :
    k ≤ type.members.length ∧
    (UA_copy builtinCopy arrayCopy memberCopy src type).status ≠ none ∧
    (UA_copy builtinCopy arrayCopy memberCopy src type).dst
      = List.replicate type.members.length none ∧
    populated (UA_copy builtinCopy arrayCopy memberCopy src type).dst = [] ∧
    (UA_copy builtinCopy arrayCopy memberCopy src type).src = src := by
  have hlen : k - 1 < type.members.length := by
    rcases Nat.lt_or_ge (k - 1) type.members.length with h | h
    · exact h
    · rw [List.getElem?_eq_none h] at hm
      cases hm
  have hfail0 : copyMember arrayCopy memberCopy (0 + (k - 1)) m v = .error e := by
    rw [Nat.zero_add]; exact hfail
  obtain ⟨e1, dst1, hwalk⟩ :=
    copyMembers_fails arrayCopy memberCopy type.members src 0
      (List.replicate src.length none) (k - 1) m v e hm hv hfail0
  refine ⟨by omega, ?_, ?_, ?_, ?_⟩
  · simp [UA_copy, hT, hwalk]
  · simp only [UA_copy, hT, hwalk]
    rw [← hN]
    rfl
  · simp only [UA_copy, hT, hwalk]
    exact populated_replicate_none src.length
  · simp [UA_copy, hT, hwalk]

/-- A three-member structure whose second member is an array; the array copy
of the second member fails for lack of memory after the first member was
copied. The destination ends with three empty slots. -/
theorem UA_copy_failure_atomic_witness :
    (UA_copy (V := Nat) (fun vs => .ok vs)
      (fun _ _ => .error .AllocationFailure) (fun _ v => .ok v) [10, 20, 30]
      { typeId := UA_NODEID_NUMERIC 0 7, memSize := 40, typeIndex := 7, membersSize := 3,
        builtin := false, fixedSize := false, zeroCopyable := false,
        members := [⟨6, 0, true, false⟩, ⟨6, 4, true, true⟩, ⟨6, 0, true, false⟩] }).dst
      = [none, none, none] :=
  (UA_copy_failure_atomic (V := Nat) (fun vs => .ok vs)
      (fun _ _ => .error .AllocationFailure) (fun _ v => .ok v) [10, 20, 30]
      { typeId := UA_NODEID_NUMERIC 0 7, memSize := 40, typeIndex := 7, membersSize := 3,
        builtin := false, fixedSize := false, zeroCopyable := false,
        members := [⟨6, 0, true, false⟩, ⟨6, 4, true, true⟩, ⟨6, 0, true, false⟩] }
      2 ⟨6, 4, true, true⟩ 20 .AllocationFailure rfl rfl (by decide) rfl rfl rfl).2.2.1

/-- When no member copy fails, every member of the destination is populated
with its copy (here a three-member structure). -/
theorem UA_copy_success_example :
    (UA_copy (V := Nat) (fun vs => .ok vs) (fun _ v => .ok v) (fun _ v => .ok v)
      [10, 20, 30]
      { typeId := UA_NODEID_NUMERIC 0 7, memSize := 40, typeIndex := 7, membersSize := 3,
        builtin := false, fixedSize := false, zeroCopyable := false,
        members := [⟨6, 0, true, false⟩, ⟨6, 4, true, true⟩, ⟨6, 0, true, false⟩] }).dst
      = [some 10, some 20, some 30] := by
  rfl

/-! ## Arrays -/

/-- C6: array bounds. `MAX_ARRAY_SIZE` is 104857600 = 100 * 1024 * 1024.
`UA_Array_new(count, T)` fails when `count` is 0 and when `count` exceeds
`MAX_ARRAY_SIZE`; for every other count, when memory is available, it returns
`count * T.memSize` bytes that are all zero, and that byte count does not
overflow a 64-bit `size_t` for a 16-bit `memSize`. -/
theorem UA_Array_new_bounds (available : Bool) (count : Nat) (type : UA_DataType) :
    MAX_ARRAY_SIZE = 104857600 ∧ MAX_ARRAY_SIZE = 100 * 1024 * 1024 ∧
    (count = 0 → UA_Array_new available count type = none) ∧
    (count > MAX_ARRAY_SIZE → UA_Array_new available count type = none) ∧
    (count ≠ 0 → count ≤ MAX_ARRAY_SIZE → available = true →
      UA_Array_new available count type
        = some (List.replicate (count * type.memSize) 0)) ∧
    (count ≠ 0 → count ≤ MAX_ARRAY_SIZE → available = true →
      ∃ bytes, UA_Array_new available count type = some bytes ∧
        bytes.length = count * type.memSize ∧ ∀ b ∈ bytes, b = 0) ∧
    (count ≤ MAX_ARRAY_SIZE → type.memSize < 2 ^ 16 →
      count * type.memSize < 2 ^ 64) := by
  refine ⟨rfl, by decide, ?_, ?_, ?_, ?_, ?_⟩
  · intro h
    simp [UA_Array_new, h]
  · intro h
    have h0 : count ≠ 0 := by
      intro hc
      rw [hc] at h
      exact absurd h (by decide)
    simp [UA_Array_new, h0, h]
  · intro h0 h1 h2
    have h3 : ¬ (count > MAX_ARRAY_SIZE) := by omega
    simp [UA_Array_new, UA_calloc, h0, h3, h2]
  · intro h0 h1 h2
    have h3 : ¬ (count > MAX_ARRAY_SIZE) := by omega
    refine ⟨List.replicate (count * type.memSize) 0, ?_, ?_, ?_⟩
    · simp [UA_Array_new, UA_calloc, h0, h3, h2]
    · exact List.length_replicate _ _
    · intro b hb
      exact List.eq_of_mem_replicate hb
  · intro h1 h2
    have hmax : MAX_ARRAY_SIZE = 104857600 := rfl
    rw [hmax] at h1
    calc count * type.memSize ≤ 104857600 * type.memSize := Nat.mul_le_mul_right _ h1
      _ ≤ 104857600 * 2 ^ 16 := Nat.mul_le_mul_left _ (Nat.le_of_lt h2)
      _ < 2 ^ 64 := by norm_num

/-- An array of two elements of a 3-byte type is six zero bytes. -/
theorem UA_Array_new_bounds_witness :
    UA_Array_new true 2
      { typeId := UA_NODEID_NUMERIC 0 1, memSize := 3, typeIndex := 0, membersSize := 0,
        builtin := true, fixedSize := true, zeroCopyable := true, members := [] }
      = some [0, 0, 0, 0, 0, 0] :=
  (UA_Array_new_bounds true 2
      { typeId := UA_NODEID_NUMERIC 0 1, memSize := 3, typeIndex := 0, membersSize := 0,
        builtin := true, fixedSize := true, zeroCopyable := true, members := [] }).2.2.2.2.1
    (by decide) (by decide) rfl

/-! ## Integer constants -/

theorem castInt64_bounds (bits : Nat) :
    -(2 : Int) ^ 63 ≤ castInt64 bits ∧ castInt64 bits ≤ 2 ^ 63 - 1 := by
  have hlt : bits % 2 ^ 64 < 2 ^ 64 := Nat.mod_lt _ (by norm_num)
  unfold castInt64
  split
  · next h => constructor <;> omega
  · next h => constructor <;> omega

/-- C7: the Int64 bound constants are the two's-complement bounds of a 64-bit
signed integer. `UA_INT64_MAX` is `2^63 - 1 = 9223372036854775807`,
`UA_INT64_MIN` is `-2^63 = -9223372036854775808`, every `UA_Int64` value lies
between them, and both bounds are attained. -/
theorem UA_INT64_bounds :
    UA_INT64_MAX = 2 ^ 63 - 1 ∧ UA_INT64_MAX = 9223372036854775807 ∧
    UA_INT64_MIN = -2 ^ 63 ∧ UA_INT64_MIN = -9223372036854775808 ∧
    (∀ bits : Nat, UA_INT64_MIN ≤ castInt64 bits ∧ castInt64 bits ≤ UA_INT64_MAX) ∧
    castInt64 (2 ^ 63 - 1) = UA_INT64_MAX ∧ castInt64 (2 ^ 63) = UA_INT64_MIN := by
  have hmax : UA_INT64_MAX = 2 ^ 63 - 1 := by decide
  have hmin : UA_INT64_MIN = -2 ^ 63 := by decide
  refine ⟨hmax, by decide, hmin, by decide, ?_, by decide, by decide⟩
  intro bits
  rw [hmax, hmin]
  exact castInt64_bounds bits

/-- C8: `UA_UINT64_MAX`, the literal 18446744073709551615 cast to `int64_t`,
evaluates to -1 and not to `2^64 - 1`; as integers it lies below every
`UA_UInt64` value, and only a conversion back to `uint64_t` gives `2^64 - 1`.
`UA_UINT64_MIN` is 0. -/
theorem UA_UINT64_MAX_is_minus_one :
    UA_UINT64_MAX = -1 ∧ UA_UINT64_MAX ≠ 2 ^ 64 - 1 ∧ UA_UINT64_MIN = 0 ∧
    (∀ x : Nat, UA_UINT64_MAX < (castUInt64 x : Int)) ∧
    ¬ (((1 : Nat) : Int) ≤ UA_UINT64_MAX) ∧
    castUInt64 UA_UINT64_MAX = 2 ^ 64 - 1 := by
  have h : UA_UINT64_MAX = -1 := by decide
  refine ⟨h, by decide, by decide, ?_, by decide, by decide⟩
  intro x
  rw [h]
  omega

/-- C10: `UA_BYTE_MAX` is 256, which is not a value of `UA_Byte`: converting
it to `UA_Byte` gives 0, and every `UA_Byte` is strictly below it, the largest
being 255. The sibling constants `UA_UINT16_MAX` and `UA_UINT32_MAX` are
`2^16 - 1` and `2^32 - 1`. `UA_BYTE_MIN` is 0 and is a `UA_Byte`. -/
theorem UA_BYTE_MAX_not_a_byte :
    UA_BYTE_MAX = 2 ^ 8 ∧ castByte UA_BYTE_MAX = 0 ∧ castByte UA_BYTE_MAX ≠ UA_BYTE_MAX ∧
    (∀ n : Nat, castByte n < UA_BYTE_MAX ∧ castByte n ≤ 255) ∧ castByte 255 = 255 ∧
    (∀ n : Nat, UA_BYTE_MIN ≤ castByte n) ∧ castByte UA_BYTE_MIN = UA_BYTE_MIN ∧
    UA_UINT16_MAX = 2 ^ 16 - 1 ∧ UA_UINT32_MAX = 2 ^ 32 - 1 ∧ UA_SBYTE_MAX = 2 ^ 7 - 1 := by
  refine ⟨by decide, by decide, by decide, ?_, by decide, ?_, by decide, by decide,
    by decide, by decide⟩
  · intro n
    have h : n % 2 ^ 8 < 2 ^ 8 := Nat.mod_lt _ (by norm_num)
    simp only [castByte, UA_BYTE_MAX]
    omega
  · intro n
    simp [UA_BYTE_MIN]

/-! ## DateTime -/

set_option maxRecDepth 20000 in
theorem daysFromYear_1601_to_1970 : daysFromYear 1601 369 = 134774 := by
  decide

/-- C9: `UA_DATETIME_UNIX_EPOCH` is the DateTime of 1 Jan 1970 00:00 UTC. With
`UA_USEC_TO_DATETIME = 10`, `UA_MSEC_TO_DATETIME = 10^4` and
`UA_SEC_TO_DATETIME = 10^7`, the constant is
`116444736000000000 = 134774 * 86400 * 10^7`, where 134774 is the number of
days of the proleptic Gregorian calendar from 1601-01-01 to 1970-01-01; no
product overflows and the value fits in a signed 64-bit integer. -/
theorem UA_DATETIME_UNIX_EPOCH_value :
    UA_USEC_TO_DATETIME = 10 ∧ UA_MSEC_TO_DATETIME = 10 ^ 4 ∧
    UA_SEC_TO_DATETIME = 10 ^ 7 ∧
    UA_DATETIME_UNIX_EPOCH = 116444736000000000 ∧
    UA_DATETIME_UNIX_EPOCH = 134774 * 86400 * 10 ^ 7 ∧
    1601 + 369 = 1970 ∧ daysFromYear 1601 369 = 134774 ∧
    UA_DATETIME_UNIX_EPOCH = (daysFromYear 1601 369 : Int) * 86400 * UA_SEC_TO_DATETIME ∧
    UA_MSEC_TO_DATETIME = UA_USEC_TO_DATETIME * 1000 ∧
    UA_SEC_TO_DATETIME = UA_MSEC_TO_DATETIME * 1000 ∧
    UA_DATETIME_UNIX_EPOCH = 11644473600 * UA_SEC_TO_DATETIME ∧
    UA_INT64_MIN ≤ UA_DATETIME_UNIX_EPOCH ∧ UA_DATETIME_UNIX_EPOCH ≤ UA_INT64_MAX := by
  have hd : daysFromYear 1601 369 = 134774 := daysFromYear_1601_to_1970
  refine ⟨rfl, by decide, by decide, by decide, by decide, rfl, hd, ?_, by decide,
    by decide, by decide, by decide, by decide⟩
  rw [hd]
  decide

/-! ## Zero-initialized structures -/

theorem loadLE_zero (mem : Memory) :
    ∀ (w a : Nat), (∀ i, i < w → mem (a + i) = 0) → loadLE mem a w = 0 := by
  intro w
  induction w with
  | zero => intro a _; rfl
  | succ k ih =>
    intro a h
    have h0 : mem a = 0 := by simpa using h 0 (Nat.succ_pos k)
    have hrest : loadLE mem (a + 1) k = 0 := by
      apply ih
      intro i hi
      have := h (i + 1) (by omega)
      rw [show a + 1 + i = a + (i + 1) by omega]
      exact this
    simp [loadLE, h0, hrest]

theorem loadBE_zero (mem : Memory) (a : Nat) :
    ∀ (w : Nat), (∀ i, i < w → mem (a + i) = 0) → loadBE mem a w = 0 := by
  intro w
  induction w with
  | zero => intro _; rfl
  | succ k ih =>
    intro h
    have hlast : mem (a + k) = 0 := h k (Nat.lt_succ_self k)
    have hrest : loadBE mem a k = 0 := ih (fun i hi => h i (by omega))
    simp [loadBE, hlast, hrest]

theorem load_after_UA_init (pf : Platform) (mem : Memory) (p : Nat) (type : UA_DataType)
    (off w : Nat) (h : off + w ≤ type.memSize) :
    pf.load (UA_init mem p type) (p + off) w = 0 := by
  have hz : ∀ i, i < w → UA_init mem p type (p + off + i) = 0 := by
    intro i hi
    have h1 : p ≤ p + off + i ∧ p + off + i < p + type.memSize := by omega
    simp [UA_init, memset_apply, h1]
  unfold Platform.load
  split
  · exact loadBE_zero _ _ w hz
  · exact loadLE_zero _ w _ hz

/-- C11: a zero-initialized NodeId is the canonical null NodeId. Whatever the
byte order, the enum size and the field offsets, the NodeId read back from
memory that `UA_init` has cleared (with a descriptor size that covers the
fields) has namespace index 0, the kind `UA_NODEIDTYPE_NUMERIC`, whose enum
value is 0, and the numeric identifier 0; it is `UA_NODEID_NUMERIC(0, 0)` and
`UA_NodeId_isNull` is true for it. -/
theorem UA_NodeId_zero_initialized_is_null (pf : Platform) (lay : UA_NodeId_Layout)
    (mem : Memory) (p : Nat) (type : UA_DataType) (pun : UA_NodeIdIdentifier → Nat)
    (hfit : lay.fits pf type.memSize) :
    UA_NodeId.load pf lay (UA_init mem p type) p = some (UA_NODEID_NUMERIC 0 0) ∧
    (∀ n, UA_NodeId.load pf lay (UA_init mem p type) p = some n →
      n.namespaceIndex = 0 ∧ n.identifierType = .UA_NODEIDTYPE_NUMERIC ∧
      n.identifier = .numeric 0 ∧ UA_NodeId_isNull pun n = true) ∧
    UA_NodeIdType.toNat .UA_NODEIDTYPE_NUMERIC = 0 ∧
    UA_NodeIdType.ofNat? 0 = some .UA_NODEIDTYPE_NUMERIC := by
  obtain ⟨hns, hty, hid⟩ := hfit
  have hload : UA_NodeId.load pf lay (UA_init mem p type) p
      = some (UA_NODEID_NUMERIC 0 0) := by
    simp only [UA_NodeId.load, load_after_UA_init pf mem p type _ _ hty,
      load_after_UA_init pf mem p type _ _ hns, load_after_UA_init pf mem p type _ _ hid,
      UA_NodeIdType.ofNat?, UA_NODEID_NUMERIC]
  refine ⟨hload, ?_, rfl, rfl⟩
  intro n hn
  rw [hload] at hn
  cases hn
  simp [UA_NODEID_NUMERIC, UA_NodeId_isNull, UA_NodeIdIdentifier.readNumeric]

/-- A little-endian platform with 8-byte words and 4-byte enums, the fields of
the NodeId at offsets 0, 4 and 8 of a 24-byte structure at address 4096 in a
memory of `0xFF` bytes. -/
theorem UA_NodeId_zero_initialized_is_null_witness :
    UA_NodeId.load ⟨false, 8, 4⟩ ⟨0, 4, 8⟩
      (UA_init (fun _ => 255) 4096
        { typeId := UA_NODEID_NUMERIC 0 17, memSize := 24, typeIndex := 16, membersSize := 0,
          builtin := true, fixedSize := false, zeroCopyable := false, members := [] }) 4096
      = some (UA_NODEID_NUMERIC 0 0) :=
  (UA_NodeId_zero_initialized_is_null ⟨false, 8, 4⟩ ⟨0, 4, 8⟩ (fun _ => 255) 4096
      { typeId := UA_NODEID_NUMERIC 0 17, memSize := 24, typeIndex := 16, membersSize := 0,
        builtin := true, fixedSize := false, zeroCopyable := false, members := [] }
      (fun _ => 0) (by decide)).1

/-- Reading is not constant: from a memory whose bytes are all 0 except a 1 at
address 0 and a 3 at address 4, the same platform reads the string NodeId of
namespace 1 with a null string. -/
theorem UA_NodeId_load_example :
    UA_NodeId.load ⟨false, 8, 4⟩ ⟨0, 4, 8⟩
      (fun a => if a = 0 then 1 else if a = 4 then 3 else 0) 0
      = some { namespaceIndex := 1, identifierType := .UA_NODEIDTYPE_STRING,
               identifier := .string { length := 0, data := 0 } } := by
  decide

/-- C12: a zero-initialized Variant is the empty Variant. Whatever the byte
order, the word and enum sizes and the field offsets, the Variant read back
from memory that `UA_init` has cleared (with a descriptor size that covers the
fields) has a null type descriptor, the storage type `UA_VARIANT_DATA`, whose
enum value is 0, array length 0, null data, no array dimensions and a null
dimensions pointer; it is in the absent state and `UA_Variant_isScalar` is
false for it. -/
theorem UA_Variant_zero_initialized_is_empty (pf : Platform) (lay : UA_Variant_Layout)
    (mem : Memory) (p : Nat) (type : UA_DataType)
    (hfit : lay.fits pf type.memSize) :
    UA_Variant.load pf lay (UA_init mem p type) p
      = some { type := UA_NULL, storageType := .UA_VARIANT_DATA, arrayLength := 0,
               data := UA_NULL, arrayDimensionsSize := 0, arrayDimensions := UA_NULL } ∧
    (∀ v, UA_Variant.load pf lay (UA_init mem p type) p = some v →
      v.type = UA_NULL ∧ v.storageType = .UA_VARIANT_DATA ∧ v.arrayLength = 0 ∧
      v.data = UA_NULL ∧ v.arrayDimensionsSize = 0 ∧ v.arrayDimensions = UA_NULL ∧
      v.isAbsent = true ∧ v.isEmptyArray = false ∧ v.isScalarState = false ∧
      v.isArray = false ∧ UA_Variant_isScalar v = false) ∧
    UA_VariantStorageType.toNat .UA_VARIANT_DATA = 0 ∧
    UA_VariantStorageType.ofNat? 0 = some .UA_VARIANT_DATA := by
  obtain ⟨h1, h2, h3, h4, h5, h6⟩ := hfit
  have hload : UA_Variant.load pf lay (UA_init mem p type) p
      = some { type := UA_NULL, storageType := .UA_VARIANT_DATA, arrayLength := 0,
               data := UA_NULL, arrayDimensionsSize := 0, arrayDimensions := UA_NULL } := by
    simp only [UA_Variant.load, load_after_UA_init pf mem p type _ _ h1,
      load_after_UA_init pf mem p type _ _ h2, load_after_UA_init pf mem p type _ _ h3,
      load_after_UA_init pf mem p type _ _ h4, load_after_UA_init pf mem p type _ _ h5,
      load_after_UA_init pf mem p type _ _ h6, UA_VariantStorageType.ofNat?, UA_NULL]
  refine ⟨hload, ?_, rfl, rfl⟩
  intro v hv
  rw [hload] at hv
  cases hv
  simp [UA_NULL, UA_Variant.isAbsent, UA_Variant.isEmptyArray, UA_Variant.isScalarState,
    UA_Variant.isArray, UA_Variant_isScalar, UA_EMPTY_ARRAY_SENTINEL]

/-- A little-endian platform with 8-byte words and 4-byte enums, the fields of
the Variant at offsets 0, 8, 16, 24, 32 and 40 of a 48-byte structure at
address 4096 in a memory of `0xFF` bytes. -/
theorem UA_Variant_zero_initialized_is_empty_witness :
    UA_Variant.load ⟨false, 8, 4⟩ ⟨0, 8, 16, 24, 32, 40⟩
      (UA_init (fun _ => 255) 4096
        { typeId := UA_NODEID_NUMERIC 0 24, memSize := 48, typeIndex := 23, membersSize := 0,
          builtin := true, fixedSize := false, zeroCopyable := false, members := [] }) 4096
      = some { type := UA_NULL, storageType := .UA_VARIANT_DATA, arrayLength := 0,
               data := UA_NULL, arrayDimensionsSize := 0, arrayDimensions := UA_NULL } :=
  (UA_Variant_zero_initialized_is_empty ⟨false, 8, 4⟩ ⟨0, 8, 16, 24, 32, 40⟩
      (fun _ => 255) 4096
      { typeId := UA_NODEID_NUMERIC 0 24, memSize := 48, typeIndex := 23, membersSize := 0,
        builtin := true, fixedSize := false, zeroCopyable := false, members := [] }
      (by decide)).1

/-! ## Session services -/

/-- C13: `Service_CreateSession` already binds the channel to the new session.
After it returns, the session pointer of the channel is the pointer that
`UA_SessionManager_createSession` delivered, and `Service_ActivateSession`
changes nothing in the server state, so activation is not what binds. On the
example server the channel at address 1 has no session before the call and
points to the new session at address 100 after it, before any activation. -/
theorem Service_CreateSession_binds_channel {SM Req Resp : Type} (env : SessionEnv SM)
    (st : ServerState SM) (channel : Nat) (request : UA_CreateSessionRequest)
    (response : UA_CreateSessionResponse) (session : Nat) (areq : Req) (aresp : Resp) :
    ((Service_CreateSession env st channel request response).state.channels channel).session
      = (env.UA_SessionManager_createSession st channel).2 ∧
    (Service_ActivateSession env
        (Service_CreateSession env st channel request response).state session areq aresp).state
      = (Service_CreateSession env st channel request response).state ∧
    (Service_ActivateSession env st session areq aresp).state = st ∧
    (exampleServerState.channels 1).session = UA_NULL ∧
    ((Service_CreateSession exampleSessionEnv exampleServerState 1
        exampleCreateSessionRequest exampleCreateSessionResponse).state.channels 1).session
      = 100 ∧
    (100 : Nat) ≠ UA_NULL ∧
    (((Service_CreateSession exampleSessionEnv exampleServerState 1
        exampleCreateSessionRequest exampleCreateSessionResponse).state.sessions 100).channel
      = 1) := by
  refine ⟨?_, rfl, rfl, rfl, by decide, by decide, by decide⟩
  simp [Service_CreateSession, ServerState.setChannel]

/-- C14: `Service_CloseSession` returns `UA_SUCCESS`, leaves the response as
it was, and unbinds the channel of the session before it removes the session:
`UA_SessionManager_removeSession` is run on a state that differs from the
initial one only in that the channel of the session has no session. Provided
the removal does not bind a channel that has no session, the channel refers to
no session afterwards. -/
theorem Service_CloseSession_unbinds {SM Req Resp : Type} (env : SessionEnv SM)
    (st : ServerState SM) (session : Nat) (request : Req) (response : Resp)
    (hremove : ∀ (st1 : ServerState SM) (id : UA_NodeId) (c : Nat),
      (st1.channels c).session = UA_NULL →
      ((env.UA_SessionManager_removeSession st1 id).channels c).session = UA_NULL) :
    (Service_CloseSession env st session request response).retval = env.UA_SUCCESS ∧
    ((Service_CloseSession env st session request response).state.channels
        (st.sessions session).channel).session = UA_NULL ∧
    (Service_CloseSession env st session request response).response = response ∧
    ∃ st1 : ServerState SM,
      (st1.channels (st.sessions session).channel).session = UA_NULL ∧
      (∀ c, c ≠ (st.sessions session).channel → st1.channels c = st.channels c) ∧
      st1.sessions = st.sessions ∧ st1.sessionManager = st.sessionManager ∧
      (Service_CloseSession env st session request response).state
        = env.UA_SessionManager_removeSession st1 (st.sessions session).sessionId := by
  have hunbound :
      ((st.setChannel (st.sessions session).channel
          { st.channels (st.sessions session).channel with session := UA_NULL }).channels
        (st.sessions session).channel).session = UA_NULL := by
    simp [ServerState.setChannel]
  refine ⟨rfl, ?_, rfl, ?_⟩
  · exact hremove _ _ _ hunbound
  · refine ⟨st.setChannel (st.sessions session).channel
        { st.channels (st.sessions session).channel with session := UA_NULL },
      hunbound, ?_, rfl, rfl, rfl⟩
    intro c hc
    simp [ServerState.setChannel, hc]

/-- On the example server, the session created for the channel at address 1
lives at address 100; the channel points to it before `Service_CloseSession`
and to no session afterwards. -/
theorem Service_CloseSession_unbinds_witness :
    ((Service_CreateSession exampleSessionEnv exampleServerState 1
        exampleCreateSessionRequest exampleCreateSessionResponse).state.channels 1).session
      = 100 ∧
    ((Service_CloseSession exampleSessionEnv
        (Service_CreateSession exampleSessionEnv exampleServerState 1
          exampleCreateSessionRequest exampleCreateSessionResponse).state
        100 () ()).state.channels 1).session = UA_NULL :=
  ⟨by decide,
   (Service_CloseSession_unbinds exampleSessionEnv
      (Service_CreateSession exampleSessionEnv exampleServerState 1
        exampleCreateSessionRequest exampleCreateSessionResponse).state
      100 () () (fun _ _ _ h => h)).2.1⟩

end UA
